import Mathlib

/-!
Verification of the solar-pv-design-optimiser core against its specification.

The Python sources are embedded shallowly:
* machine floats are modelled as exact rationals (`ℚ`); the hourly time
  series become functions `ℕ → ℚ` over the 8760 hours of a year;
* the `Inputs` dataclass (src/scenario.py) becomes a structure whose fields
  carry the unwrapped `UnitVar.value` of each parameter;
* the four derived tables of `Scenario` become functions from the year to a
  row structure; a pandas cell that is left `NaN` is an `Option ℚ` holding
  `none`, and a float division whose denominator is zero (which yields a
  non-finite float, not an exception) is a checked division returning `none`;
* stateful loops that mutate the shared `Inputs` object (src/pv_sizing.py,
  src/sensitivity.py) become explicit state passing;
* Python exceptions are an `Except String` channel; the one reachable
  `raise` in the Scenario constructor — `npf.irr` rejecting the non-finite
  cashflows that arise when a study year's PV total sums to zero — appears
  as an explicit guard in `buildScenarioE`, and paths with no reachable
  `raise` return `ok`.
-/

/-- The `Inputs` dataclass of src/scenario.py, after `__post_init__` has run:
each field holds the raw `UnitVar.value`.  `load` is the hourly load series
(kWh) and `ref_specific_yield` the derived hourly specific-yield series
(kWh/kWp), both indexed by the hour of the year (0 ≤ h < 8760).  Fields that
no claim touches (`ref_yield`, `ref_capacity`, `postproc_losses`,
`currency`) are omitted; the full dataclass field list is kept separately in
`inputsFieldNames` for the sensitivity sweep's name lookup. -/
structure Inputs where
  load : ℕ → ℚ
  ref_specific_yield : ℕ → ℚ
  study_period : ℕ
  discount_rate : ℚ
  pv_capacity : ℚ
  pv_degradation : ℚ
  devex : ℚ
  capex : ℚ
  opex : ℚ
  opex_increase : ℚ
  loan : ℚ
  loan_period : ℕ
  loan_rate : ℚ
  import_tariff : ℚ
  export_tariff : ℚ
  import_increase : ℚ
  export_increase : ℚ

/-! ## Scenario._calc_annual_energy_balance (src/scenario.py lines 165-212) -/

/-- Column `enLoad` of the hourly energy-balance table: the load series. -/
def enLoad (inp : Inputs) (h : ℕ) : ℚ := inp.load h

/-- Column `enPV total`: `ref_specific_yield * capacity_dc_degr` where
`capacity_dc_degr = pv_capacity * (1 - pv_degradation * (year - 0.5))`
(mid-year averaged linear degradation, line 188). -/
def enPVtotal (inp : Inputs) (year : ℕ) (h : ℕ) : ℚ :=
  inp.ref_specific_yield h * (inp.pv_capacity * (1 - inp.pv_degradation * ((year : ℚ) - 1/2)))

/-- `energy_shortfall` mask (line 194): the hour's PV output is below the load. -/
def energy_shortfall (inp : Inputs) (year : ℕ) (h : ℕ) : Prop :=
  enPVtotal inp year h < enLoad inp h

instance (inp : Inputs) (year h : ℕ) : Decidable (energy_shortfall inp year h) := by
  unfold energy_shortfall; infer_instance

/-- Column `enPV self-cons` (lines 197-200): all of the PV output under a
shortfall, the whole load otherwise. -/
def enPVselfcons (inp : Inputs) (year : ℕ) (h : ℕ) : ℚ :=
  if energy_shortfall inp year h then enPVtotal inp year h else enLoad inp h

/-- Column `enGrid import` (lines 203-204): the shortfall amount, else 0. -/
def enGridImport (inp : Inputs) (year : ℕ) (h : ℕ) : ℚ :=
  if energy_shortfall inp year h then enLoad inp h - enPVtotal inp year h else 0

/-- Column `enGrid export` (lines 207-208): the surplus amount, else 0. -/
def enGridExport (inp : Inputs) (year : ℕ) (h : ℕ) : ℚ :=
  if energy_shortfall inp year h then 0 else enPVtotal inp year h - enLoad inp h

/-- A concrete input specification used to instantiate proved theorems:
constant load of 5 kWh per hour, flat specific yield of 1 kWh/kWp per hour,
and the scalar defaults of the `Inputs` dataclass with a one-year study. -/
def exampleInputs : Inputs where
  load := fun _ => 5
  ref_specific_yield := fun _ => 1
  study_period := 1
  discount_rate := 1/25
  pv_capacity := 1000
  pv_degradation := 1/200
  devex := 0
  capex := 700
  opex := 15
  opex_increase := 0
  loan := 0
  loan_period := 0
  loan_rate := 0
  import_tariff := 1/10
  export_tariff := 1/20
  import_increase := 0
  export_increase := 0

/-- C1: for every input specification with study period ≥ 1, every year in
1..studyPeriod and every hour, the energy-balance table satisfies
`pvSelfCons = min(load, pvTotal)`, `gridImport = max(load - pvTotal, 0)`,
`gridExport = max(pvTotal - load, 0)`, hence `load = pvSelfCons + gridImport`
and `pvTotal = pvSelfCons + gridExport`. -/
theorem energy_balance_conservation (inp : Inputs) (year h : ℕ)
    (hsp : 1 ≤ inp.study_period) (hy1 : 1 ≤ year) (hy2 : year ≤ inp.study_period) :
    enPVselfcons inp year h = min (enLoad inp h) (enPVtotal inp year h) ∧
    enGridImport inp year h = max (enLoad inp h - enPVtotal inp year h) 0 ∧
    enGridExport inp year h = max (enPVtotal inp year h - enLoad inp h) 0 ∧
    enLoad inp h = enPVselfcons inp year h + enGridImport inp year h ∧
    enPVtotal inp year h = enPVselfcons inp year h + enGridExport inp year h := by
  unfold enPVselfcons enGridImport enGridExport energy_shortfall
  by_cases hc : enPVtotal inp year h < enLoad inp h
  · simp only [if_pos hc]
    refine ⟨(min_eq_right hc.le).symm, ?_, ?_, by ring, by ring⟩
    · rw [max_eq_left (by linarith)]
    · rw [max_eq_right (by linarith)]
  · push_neg at hc
    simp only [if_neg (not_lt.mpr hc)]
    refine ⟨(min_eq_left hc).symm, ?_, ?_, by ring, by ring⟩
    · rw [max_eq_right (by linarith)]
    · rw [max_eq_left (by linarith)]

/-- Witness for C1 at `exampleInputs`, year 1, hour 0. -/
theorem energy_balance_conservation_witness :
    enPVselfcons exampleInputs 1 0 = min (enLoad exampleInputs 0) (enPVtotal exampleInputs 1 0) ∧
    enGridImport exampleInputs 1 0 = max (enLoad exampleInputs 0 - enPVtotal exampleInputs 1 0) 0 ∧
    enGridExport exampleInputs 1 0 = max (enPVtotal exampleInputs 1 0 - enLoad exampleInputs 0) 0 ∧
    enLoad exampleInputs 0 = enPVselfcons exampleInputs 1 0 + enGridImport exampleInputs 1 0 ∧
    enPVtotal exampleInputs 1 0 = enPVselfcons exampleInputs 1 0 + enGridExport exampleInputs 1 0 :=
  energy_balance_conservation exampleInputs 1 0 (le_refl 1) (le_refl 1) (le_refl 1)

/-- C6: for every year in 1..studyPeriod the hourly PV production is the
specific yield times the installed capacity degraded linearly with mid-year
averaging: `pvTotal[h] = specificYield[h] * pvCapacity * (1 - degradation * (y - 0.5))`. -/
theorem pv_total_degradation (inp : Inputs) (year h : ℕ)
    (hy1 : 1 ≤ year) (hy2 : year ≤ inp.study_period) :
    enPVtotal inp year h =
      inp.ref_specific_yield h * inp.pv_capacity *
        (1 - inp.pv_degradation * ((year : ℚ) - 1/2)) := by
  unfold enPVtotal; ring

/-- Witness for C6 at `exampleInputs`, year 1, hour 3. -/
theorem pv_total_degradation_witness :
    enPVtotal exampleInputs 1 3 =
      exampleInputs.ref_specific_yield 3 * exampleInputs.pv_capacity *
        (1 - exampleInputs.pv_degradation * ((1 : ℚ) - 1/2)) :=
  pv_total_degradation exampleInputs 1 3 (le_refl 1) (le_refl 1)

/-! ## Rounding helpers

Python's builtin `round` (used at src/scenario.py line 259 and
src/pv_sizing.py line 32) rounds half to even.  `round(x, n)` keeps `n`
decimal places. -/

/-- Python `round(q)`: nearest integer, ties to even. -/
def pyRound (q : ℚ) : ℤ :=
  let f := ⌊q⌋
  let r := q - f
  if r < 1/2 then f else if 1/2 < r then f + 1 else if 2 ∣ f then f else f + 1

/-- Python `round(q, 2)`: nearest multiple of 0.01, ties to even. -/
def round2Q (q : ℚ) : ℚ := (pyRound (100 * q) : ℚ) / 100

/-- Python `round(q, 4)`: nearest multiple of 0.0001, ties to even. -/
def round4Q (q : ℚ) : ℚ := (pyRound (10000 * q) : ℚ) / 10000

/-! ## Scenario._calc_energy_balance_summary (src/scenario.py lines 214-230)

One row per year with the hourly columns summed and scaled to MWh. -/

/-- Summary column `enLoad` (MWh): the load series summed over the year. -/
def ebsEnLoad (inp : Inputs) : ℚ := (∑ h in Finset.range 8760, enLoad inp h) / 1000

/-- Summary column `enPV total` (MWh) for a year. -/
def ebsEnPVtotal (inp : Inputs) (year : ℕ) : ℚ :=
  (∑ h in Finset.range 8760, enPVtotal inp year h) / 1000

/-- Summary column `enPV self-cons` (MWh) for a year. -/
def ebsEnPVselfcons (inp : Inputs) (year : ℕ) : ℚ :=
  (∑ h in Finset.range 8760, enPVselfcons inp year h) / 1000

/-- Summary column `enGrid import` (MWh) for a year. -/
def ebsEnGridImport (inp : Inputs) (year : ℕ) : ℚ :=
  (∑ h in Finset.range 8760, enGridImport inp year h) / 1000

/-- Summary column `enGrid export` (MWh) for a year. -/
def ebsEnGridExport (inp : Inputs) (year : ℕ) : ℚ :=
  (∑ h in Finset.range 8760, enGridExport inp year h) / 1000

/-- Summary column `PV self-cons (%)`.  The float quotient is non-finite when
the annual load is zero; `ℚ` division then yields `0` and the degenerate case
is tracked where a claim needs it (see `summaryRow`). -/
def ebsPVselfconsPct (inp : Inputs) (year : ℕ) : ℚ :=
  ebsEnPVselfcons inp year / ebsEnLoad inp

/-- Summary column `PV usage (%)` (utilisation).  In the source this is a
float quotient: when the year's annual PV total is zero it is `0/0 = NaN`
(or `±inf` on signed data), and that non-finite value propagates through
`combined tariff`, `enPV revenues` and the `cashflow` column until
`npf.irr` raises in `Scenario.__init__` — no Scenario is built at all.
`buildScenarioE` models that raise with an explicit guard, so the total
rational division here (which agrees with the float quotient whenever the
denominator is nonzero) is only ever exposed for inputs on the non-raising
branch, where the denominator is nonzero for every study year. -/
def ebsPVusage (inp : Inputs) (year : ℕ) : ℚ :=
  ebsEnPVselfcons inp year / ebsEnPVtotal inp year

/-! ## Scenario._calc_cashflow (src/scenario.py lines 232-277) -/

/-- `total_investment = (capex + devex) * pv_capacity` (line 237). -/
def total_investment (inp : Inputs) : ℚ := (inp.capex + inp.devex) * inp.pv_capacity

/-- `numpy_financial.pmt(rate, nper, pv)`: the fixed payment of an amortising
loan of principal `pv` over `nper` periods at rate `rate` (payments at period
end, future value 0); `-pv / nper` when the rate is zero. -/
def pmt (rate : ℚ) (nper : ℕ) (pv : ℚ) : ℚ :=
  if rate = 0 then -(pv / (nper : ℚ))
  else -(pv * (rate * (1 + rate) ^ nper) / ((1 + rate) ^ nper - 1))

/-- Column `import tariff` for a year (line 242): escalated import tariff. -/
def importTariffY (inp : Inputs) (year : ℕ) : ℚ :=
  inp.import_tariff * (1 + inp.import_increase) ^ year

/-- Column `export tariff` for a year (line 243). -/
def exportTariffY (inp : Inputs) (year : ℕ) : ℚ :=
  inp.export_tariff * (1 + inp.export_increase) ^ year

/-- Column `combined tariff` (lines 244-245): utilisation-weighted mix of
the import and export tariffs. -/
def combinedTariffY (inp : Inputs) (year : ℕ) : ℚ :=
  ebsPVusage inp year * importTariffY inp year +
    (1 - ebsPVusage inp year) * exportTariffY inp year

/-- Column `import costs` (line 247); the MWh quantity is scaled back to kWh. -/
def importCostsY (inp : Inputs) (year : ℕ) : ℚ :=
  importTariffY inp year * (ebsEnGridImport inp year * 1000)

/-- Column `export sales` (line 248). -/
def exportSalesY (inp : Inputs) (year : ℕ) : ℚ :=
  exportTariffY inp year * (ebsEnGridExport inp year * 1000)

/-- Column `enPV revenues` (line 249). -/
def enPVrevenuesY (inp : Inputs) (year : ℕ) : ℚ :=
  combinedTariffY inp year * (ebsEnPVtotal inp year * 1000)

/-- Column `opex` (lines 252-253): escalated operating expenditure. -/
def opexY (inp : Inputs) (year : ℕ) : ℚ :=
  inp.opex * (1 + inp.opex_increase) ^ year * inp.pv_capacity

/-- Column `loan_payment` (lines 256-259): the fixed annuity, negated and
rounded to 2 decimals, for years up to the loan period; 0 afterwards. -/
def loanPaymentY (inp : Inputs) (year : ℕ) : ℚ :=
  if year ≤ inp.loan_period then
    -(round2Q (pmt inp.loan_rate inp.loan_period (inp.loan * total_investment inp)))
  else 0

/-- Column `cashflow` (lines 262, 266): equity outlay at year 0, then
`-opex + pvRevenues - loanPayment` for each year of the study period. -/
def cashflowY (inp : Inputs) : ℕ → ℚ
  | 0 => -(total_investment inp) * (1 - inp.loan)
  | y + 1 => -(opexY inp (y + 1)) + enPVrevenuesY inp (y + 1) - loanPaymentY inp (y + 1)

/-- Column `cash balance` (lines 270-274): running sum of the cashflow,
seeded from year 0. -/
def cashBalanceY (inp : Inputs) : ℕ → ℚ
  | 0 => cashflowY inp 0
  | y + 1 => cashBalanceY inp y + cashflowY inp (y + 1)

/-- One row of the cashflow (and discounted-cashflow) table.  The year-0 row
created by `data.loc[0, 'cashflow'] = ...` holds `NaN` in every other column;
a `NaN` cell is `none`. -/
structure CashflowRow where
  enLoad : Option ℚ
  enPVtotal : Option ℚ
  enPVselfcons : Option ℚ
  enGridImport : Option ℚ
  enGridExport : Option ℚ
  importTariff : Option ℚ
  exportTariff : Option ℚ
  combinedTariff : Option ℚ
  importCosts : Option ℚ
  exportSales : Option ℚ
  enPVrevenues : Option ℚ
  opex : Option ℚ
  loanPayment : Option ℚ
  cashflow : ℚ
  cashBalance : ℚ
  deriving Repr

/-- The cashflow table, one row per year 0..studyPeriod. -/
def cashflowRow (inp : Inputs) : ℕ → CashflowRow
  | 0 =>
    { enLoad := none, enPVtotal := none, enPVselfcons := none, enGridImport := none
      enGridExport := none, importTariff := none, exportTariff := none
      combinedTariff := none, importCosts := none, exportSales := none
      enPVrevenues := none, opex := none, loanPayment := none
      cashflow := cashflowY inp 0, cashBalance := cashBalanceY inp 0 }
  | y + 1 =>
    { enLoad := some (ebsEnLoad inp), enPVtotal := some (ebsEnPVtotal inp (y + 1))
      enPVselfcons := some (ebsEnPVselfcons inp (y + 1))
      enGridImport := some (ebsEnGridImport inp (y + 1))
      enGridExport := some (ebsEnGridExport inp (y + 1))
      importTariff := some (importTariffY inp (y + 1))
      exportTariff := some (exportTariffY inp (y + 1))
      combinedTariff := some (combinedTariffY inp (y + 1))
      importCosts := some (importCostsY inp (y + 1))
      exportSales := some (exportSalesY inp (y + 1))
      enPVrevenues := some (enPVrevenuesY inp (y + 1))
      opex := some (opexY inp (y + 1)), loanPayment := some (loanPaymentY inp (y + 1))
      cashflow := cashflowY inp (y + 1), cashBalance := cashBalanceY inp (y + 1) }

/-! ## Scenario._calc_discounted_cashflow (src/scenario.py lines 279-312)

The table is a copy of the cashflow table; the loop body runs only for
`year > 0`, so the year-0 row is left exactly as copied. -/

/-- `(1 + discount_rate) ** year` (line 288). -/
def discountFactor (inp : Inputs) (year : ℕ) : ℚ := (1 + inp.discount_rate) ^ year

/-- Discounted `loan_payment` (lines 303-306): the annuity divided by the
discount factor, negated and rounded to 2 decimals, within the loan period. -/
def dLoanPaymentY (inp : Inputs) (year : ℕ) : ℚ :=
  if year ≤ inp.loan_period then
    -(round2Q (pmt inp.loan_rate inp.loan_period (inp.loan * total_investment inp) /
        discountFactor inp year))
  else 0

/-- Discounted `cashflow` (line 309).  `enPV revenues` is recomputed from the
(undiscounted, copied) `combined tariff` and the discounted `enPV total`. -/
def dCashflowY (inp : Inputs) : ℕ → ℚ
  | 0 => cashflowY inp 0
  | y + 1 =>
    -(opexY inp (y + 1) / discountFactor inp (y + 1)) +
      combinedTariffY inp (y + 1) * (ebsEnPVtotal inp (y + 1) / discountFactor inp (y + 1) * 1000) -
      dLoanPaymentY inp (y + 1)

/-- Discounted `cash balance` (line 310): seeded from the copied year-0
balance, then chained over the discounted cashflow. -/
def dCashBalanceY (inp : Inputs) : ℕ → ℚ
  | 0 => cashBalanceY inp 0
  | y + 1 => dCashBalanceY inp y + dCashflowY inp (y + 1)

/-- The discounted-cashflow table.  Row 0 is the copied cashflow row; in a
row for year ≥ 1 the energy, cost and opex cells are divided by the discount
factor while the three tariff cells keep their copied values. -/
def discountedCashflowRow (inp : Inputs) : ℕ → CashflowRow
  | 0 => cashflowRow inp 0
  | y + 1 =>
    { enLoad := some (ebsEnLoad inp / discountFactor inp (y + 1))
      enPVtotal := some (ebsEnPVtotal inp (y + 1) / discountFactor inp (y + 1))
      enPVselfcons := some (ebsEnPVselfcons inp (y + 1) / discountFactor inp (y + 1))
      enGridImport := some (ebsEnGridImport inp (y + 1) / discountFactor inp (y + 1))
      enGridExport := some (ebsEnGridExport inp (y + 1) / discountFactor inp (y + 1))
      importTariff := some (importTariffY inp (y + 1))
      exportTariff := some (exportTariffY inp (y + 1))
      combinedTariff := some (combinedTariffY inp (y + 1))
      importCosts := some (importCostsY inp (y + 1) / discountFactor inp (y + 1))
      exportSales := some (exportSalesY inp (y + 1) / discountFactor inp (y + 1))
      enPVrevenues := some (combinedTariffY inp (y + 1) *
        (ebsEnPVtotal inp (y + 1) / discountFactor inp (y + 1) * 1000))
      opex := some (opexY inp (y + 1) / discountFactor inp (y + 1))
      loanPayment := some (dLoanPaymentY inp (y + 1))
      cashflow := dCashflowY inp (y + 1), cashBalance := dCashBalanceY inp (y + 1) }

/-! ## Scenario._calc_LCOE (src/scenario.py lines 314-329)

Every total is a pandas column sum over the discounted-cashflow table; the
`NaN` cells of the year-0 row are skipped, so each sum runs over the years
1..studyPeriod.  The two final quotients are float divisions with no guard:
a zero denominator yields a non-finite float, modelled as `none`. -/

/-- Float division: `none` models the non-finite result of dividing by 0. -/
def checkedDiv (a b : ℚ) : Option ℚ := if b = 0 then none else some (a / b)

/-- `equity = investment * (1 - loan)` (line 318). -/
def lcoeEquity (inp : Inputs) : ℚ := total_investment inp * (1 - inp.loan)

/-- `loan_plus_interest`: sum of the discounted `loan_payment` column. -/
def lcoeLoanSum (inp : Inputs) : ℚ :=
  ∑ y in Finset.Icc 1 inp.study_period, dLoanPaymentY inp y

/-- Sum of the discounted `opex` column. -/
def lcoeOpexSum (inp : Inputs) : ℚ :=
  ∑ y in Finset.Icc 1 inp.study_period, opexY inp y / discountFactor inp y

/-- `grid_import`: sum of the discounted `import costs` column. -/
def lcoeImportSum (inp : Inputs) : ℚ :=
  ∑ y in Finset.Icc 1 inp.study_period, importCostsY inp y / discountFactor inp y

/-- `grid_export`: sum of the discounted `export sales` column. -/
def lcoeExportSum (inp : Inputs) : ℚ :=
  ∑ y in Finset.Icc 1 inp.study_period, exportSalesY inp y / discountFactor inp y

/-- `energy`: sum of the discounted `enPV self-cons` column, back in kWh. -/
def lcoeEnergySum (inp : Inputs) : ℚ :=
  (∑ y in Finset.Icc 1 inp.study_period, ebsEnPVselfcons inp y / discountFactor inp y) * 1000

/-- `load`: sum of the discounted `enLoad` column, back in kWh. -/
def lcoeLoadSum (inp : Inputs) : ℚ :=
  (∑ y in Finset.Icc 1 inp.study_period, ebsEnLoad inp / discountFactor inp y) * 1000

/-- `_calc_LCOE` (lines 326-329): the pair `(LCOE * 1000, BLCOE * 1000)`. -/
def calcLCOE (inp : Inputs) : Option ℚ × Option ℚ :=
  ((checkedDiv (lcoeEquity inp + lcoeLoanSum inp + lcoeOpexSum inp - lcoeExportSum inp)
      (lcoeEnergySum inp)).map (· * 1000),
   (checkedDiv (lcoeEquity inp + lcoeLoanSum inp + lcoeOpexSum inp - lcoeExportSum inp +
        lcoeImportSum inp)
      (lcoeLoadSum inp)).map (· * 1000))

/-! ## Scenario._calc_summary (src/scenario.py lines 331-359)

The `irr` column (an iterative float root-find, line 348) and the
`pay_back_period` column (lines 350-357) are not part of this row structure;
the payback-period estimator is modelled separately below as
`pay_back_period_cents`, and no claim depends on `irr`. -/

/-- The one-row metrics summary, indexed by the pv capacity. -/
structure SummaryRow where
  pv_capacity : ℚ
  load : ℚ
  energy_pv_total : ℚ
  energy_pv_self_cons : ℚ
  energy_grid_import : ℚ
  energy_grid_export : ℚ
  pv_self_cons : Option ℚ
  pv_utilisation : Option ℚ
  capex : ℚ
  opex : Option ℚ
  lcoe : Option ℚ
  blcoe : Option ℚ
  npv : ℚ

/-- `_calc_summary`: column sums over the cashflow table (year-0 `NaN` cells
skipped), the LCOE pair, and `npv` as the sum of the discounted `cashflow`
column (line 347). -/
def summaryRow (inp : Inputs) : SummaryRow where
  pv_capacity := inp.pv_capacity
  load := ∑ _y in Finset.Icc 1 inp.study_period, ebsEnLoad inp
  energy_pv_total := ∑ y in Finset.Icc 1 inp.study_period, ebsEnPVtotal inp y
  energy_pv_self_cons := ∑ y in Finset.Icc 1 inp.study_period, ebsEnPVselfcons inp y
  energy_grid_import := ∑ y in Finset.Icc 1 inp.study_period, ebsEnGridImport inp y
  energy_grid_export := ∑ y in Finset.Icc 1 inp.study_period, ebsEnGridExport inp y
  pv_self_cons :=
    (checkedDiv (∑ y in Finset.Icc 1 inp.study_period, ebsEnPVselfcons inp y)
      (∑ _y in Finset.Icc 1 inp.study_period, ebsEnLoad inp)).map (· * 100)
  pv_utilisation :=
    (checkedDiv (∑ y in Finset.Icc 1 inp.study_period, ebsEnPVselfcons inp y)
      (∑ y in Finset.Icc 1 inp.study_period, ebsEnPVtotal inp y)).map (· * 100)
  capex := inp.capex * inp.pv_capacity
  opex :=
    checkedDiv (∑ y in Finset.Icc 1 inp.study_period, opexY inp y) (inp.study_period : ℚ)
  lcoe := (calcLCOE inp).1
  blcoe := (calcLCOE inp).2
  npv := ∑ y in Finset.range (inp.study_period + 1), (discountedCashflowRow inp y).cashflow

/-- A built `Scenario` (src/scenario.py lines 132-163): the derived tables
kept by the claims.  `data` is the `_calc_summary` row. -/
structure ScenarioData where
  cashflow : ℕ → CashflowRow
  discounted_cashflow : ℕ → CashflowRow
  data : SummaryRow

/-- `Scenario.__init__`: compute every derived artifact from the inputs. -/
def buildScenario (inp : Inputs) : ScenarioData where
  cashflow := cashflowRow inp
  discounted_cashflow := discountedCashflowRow inp
  data := summaryRow inp

/-- Decidability of the `buildScenarioE` guard. -/
instance buildGuardDecidable (inp : Inputs) :
    Decidable (∀ y ∈ Finset.Icc 1 inp.study_period, ebsEnPVtotal inp y ≠ 0) :=
  inferInstance

/-- `Scenario.__init__` with Python's exception channel made explicit.  The
constructor performs no input validation; the only reachable `raise` is
incidental: when some study year's annual PV total is zero, the
`'PV usage (%)'` quotient is non-finite (`0/0 = NaN`, or `±inf` on signed
data), the non-finite value poisons `combined tariff`, `enPV revenues` and
the `cashflow` column, and `npf.irr` (src/scenario.py line 348) raises
`LinAlgError` because `np.roots` rejects non-finite coefficients.  On the
branch where every study year's PV total is nonzero, every derived quantity
is a finite float and nothing raises: the LCOE/BLCOE and percentage columns
are numpy float divisions that silently yield non-finite values on a zero
denominator. -/
def buildScenarioE (inp : Inputs) : Except String ScenarioData :=
  if ∀ y ∈ Finset.Icc 1 inp.study_period, ebsEnPVtotal inp y ≠ 0 then
    Except.ok (buildScenario inp)
  else Except.error "LinAlgError: Array must not contain infs or NaNs"

/-- C2: for every built Scenario the reported NPV equals the sum over years
0..studyPeriod of the discounted cashflow column, and the year-0 row of the
discounted-cashflow table is identical to the year-0 row of the cashflow
table (year 0 is left undiscounted). -/
theorem npv_discounting_consistency (inp : Inputs) :
    (buildScenario inp).data.npv =
      ∑ y in Finset.range (inp.study_period + 1),
        ((buildScenario inp).discounted_cashflow y).cashflow ∧
    (buildScenario inp).discounted_cashflow 0 = (buildScenario inp).cashflow 0 :=
  ⟨rfl, rfl⟩

/-- The degenerate input of claim C7: `exampleInputs` with an identically
zero load series, so the total load sums to zero. -/
def zeroLoadInputs : Inputs := { exampleInputs with load := fun _ => 0 }

/-- Helper: under a nonnegative load summing to zero (and nonnegative PV
output), both LCOE denominators of `_calc_LCOE` are zero, so the two checked
divisions return `none`. -/
lemma zero_load_lcoe_blcoe_none (inp : Inputs)
    (hl : ∀ h, 0 ≤ inp.load h)
    (hpv : ∀ y ∈ Finset.Icc 1 inp.study_period, ∀ h, 0 ≤ enPVtotal inp y h)
    (hz : ∑ h in Finset.range 8760, inp.load h = 0) :
    (buildScenario inp).data.lcoe = none ∧ (buildScenario inp).data.blcoe = none := by
  have hload : ∀ h ∈ Finset.range 8760, inp.load h = 0 :=
    (Finset.sum_eq_zero_iff_of_nonneg fun h _ => hl h).1 hz
  have hebs : ebsEnLoad inp = 0 := by
    unfold ebsEnLoad enLoad
    rw [Finset.sum_congr rfl hload]
    simp
  have hsc : ∀ y ∈ Finset.Icc 1 inp.study_period, ebsEnPVselfcons inp y = 0 := by
    intro y hy
    unfold ebsEnPVselfcons
    have : ∀ h ∈ Finset.range 8760, enPVselfcons inp y h = 0 := by
      intro h hh
      unfold enPVselfcons
      rw [if_neg, enLoad, hload h hh]
      unfold energy_shortfall enLoad
      rw [hload h hh]
      exact not_lt.mpr (hpv y hy h)
    rw [Finset.sum_congr rfl this]
    simp
  have henergy : lcoeEnergySum inp = 0 := by
    unfold lcoeEnergySum
    rw [Finset.sum_congr rfl fun y hy => by rw [hsc y hy, zero_div]]
    simp
  have hloadsum : lcoeLoadSum inp = 0 := by
    unfold lcoeLoadSum
    rw [Finset.sum_congr rfl fun y _ => by rw [hebs, zero_div]]
    simp
  constructor
  · show (calcLCOE inp).1 = none
    unfold calcLCOE checkedDiv
    rw [henergy]
    simp
  · show (calcLCOE inp).2 = none
    unfold calcLCOE checkedDiv
    rw [hloadsum]
    simp

/-- C7 counterexample: with an identically-zero load series, building the
Scenario raises no error — `buildScenarioE` returns `ok` — while the
unguarded LCOE/BLCOE float quotients are non-finite (`none`), refuting the
claim that a degenerate-input error is raised. -/
theorem degenerate_input_counterexample :
    buildScenarioE zeroLoadInputs = Except.ok (buildScenario zeroLoadInputs) ∧
    (buildScenario zeroLoadInputs).data.lcoe = none ∧
    (buildScenario zeroLoadInputs).data.blcoe = none := by
  refine ⟨?_, ?_⟩
  · unfold buildScenarioE
    rw [if_pos]
    intro y hy
    have hy1 : y = 1 := by
      simpa [zeroLoadInputs, exampleInputs, Nat.le_antisymm_iff, And.comm] using
        Finset.mem_Icc.1 hy
    subst hy1
    simp only [ebsEnPVtotal, enPVtotal, zeroLoadInputs, exampleInputs]
    rw [Finset.sum_const, Finset.card_range]
    norm_num
  apply zero_load_lcoe_blcoe_none
  · intro h; simp [zeroLoadInputs]
  · intro y hy h
    have hy1 : y = 1 := by
      simpa [zeroLoadInputs, exampleInputs, Nat.le_antisymm_iff, And.comm] using
        Finset.mem_Icc.1 hy
    subst hy1
    show 0 ≤ enPVtotal zeroLoadInputs 1 h
    unfold enPVtotal zeroLoadInputs exampleInputs
    norm_num
  · simp [zeroLoadInputs]

/-- A degenerate input on the other branch of claim C7: `exampleInputs` with
an identically-zero specific-yield series, so every study year's PV total
sums to zero. -/
def zeroPVInputs : Inputs := { exampleInputs with ref_specific_yield := fun _ => 0 }

/-- C7 amended: building a Scenario never raises an explicit degenerate-input
error.  When every study year's PV total is nonzero the build completes with
no error at all, and for a (nonnegative) load summing to zero the LCOE and
BLCOE ratios have zero denominators and come out non-finite (`none`) rather
than as a raised error.  When some study year's PV total sums to zero the
build does fail, but with the incidental `LinAlgError` that `npf.irr` raises
on the resulting non-finite cashflow column — not a degenerate-input
validation. -/
theorem degenerate_input_unguarded (inp : Inputs) :
    ((∀ y ∈ Finset.Icc 1 inp.study_period, ebsEnPVtotal inp y ≠ 0) →
      buildScenarioE inp = Except.ok (buildScenario inp)) ∧
    ((∃ y ∈ Finset.Icc 1 inp.study_period, ebsEnPVtotal inp y = 0) →
      buildScenarioE inp =
        Except.error "LinAlgError: Array must not contain infs or NaNs") ∧
    ((∀ h, 0 ≤ inp.load h) →
      (∀ y ∈ Finset.Icc 1 inp.study_period, ∀ h, 0 ≤ enPVtotal inp y h) →
      (∑ h in Finset.range 8760, inp.load h = 0) →
      (buildScenario inp).data.lcoe = none ∧ (buildScenario inp).data.blcoe = none) := by
  refine ⟨?_, ?_, ?_⟩
  · intro hall
    unfold buildScenarioE
    rw [if_pos hall]
  · intro hex
    unfold buildScenarioE
    rw [if_neg]
    push_neg
    exact hex
  · intro hl hpv hz
    exact zero_load_lcoe_blcoe_none inp hl hpv hz

/-- Witness for C7's amended theorem: the zero-load input builds with no
error and non-finite LCOE/BLCOE; the zero-PV input fails with the
incidental `LinAlgError`. -/
theorem degenerate_input_unguarded_witness :
    buildScenarioE zeroLoadInputs = Except.ok (buildScenario zeroLoadInputs) ∧
    (buildScenario zeroLoadInputs).data.lcoe = none ∧
    (buildScenario zeroLoadInputs).data.blcoe = none ∧
    buildScenarioE zeroPVInputs =
      Except.error "LinAlgError: Array must not contain infs or NaNs" := by
  have hguard : ∀ y ∈ Finset.Icc 1 zeroLoadInputs.study_period,
      ebsEnPVtotal zeroLoadInputs y ≠ 0 := by
    intro y hy
    have hy1 : y = 1 := by
      simpa [zeroLoadInputs, exampleInputs, Nat.le_antisymm_iff, And.comm] using
        Finset.mem_Icc.1 hy
    subst hy1
    simp only [ebsEnPVtotal, enPVtotal, zeroLoadInputs, exampleInputs]
    rw [Finset.sum_const, Finset.card_range]
    norm_num
  have hnone := (degenerate_input_unguarded zeroLoadInputs).2.2
    (by intro h; simp [zeroLoadInputs])
    (by intro y hy h
        have hy1 : y = 1 := by
          simpa [zeroLoadInputs, exampleInputs, Nat.le_antisymm_iff, And.comm] using
            Finset.mem_Icc.1 hy
        subst hy1
        show 0 ≤ enPVtotal zeroLoadInputs 1 h
        unfold enPVtotal zeroLoadInputs exampleInputs
        norm_num)
    (by simp [zeroLoadInputs])
  refine ⟨(degenerate_input_unguarded zeroLoadInputs).1 hguard, hnone.1, hnone.2, ?_⟩
  apply (degenerate_input_unguarded zeroPVInputs).2.1
  refine ⟨1, ?_, ?_⟩
  · simp [zeroPVInputs, exampleInputs]
  · simp [ebsEnPVtotal, enPVtotal, zeroPVInputs, exampleInputs]

/-! ## PVSizing (src/pv_sizing.py)

`run_pv_sensitivity` (lines 29-36) iterates over the capacity grid writing
`self.inputs.pv_capacity.value = round(capacity)` into the one shared input
object before building each Scenario — the input state is threaded through
the loop and left mutated when the sweep returns.  `aggregate_data`
(lines 38-43) concatenates the one-row summaries, indexed by the rounded
capacity, and `highest_npv` (lines 45-47) looks up the scenario stored under
`idxmax` of the `npv` column. -/

/-- The sweep loop: returns the final state of the shared inputs and the
`(rounded capacity, scenario)` pairs in grid order. -/
def run_pv_sensitivity (inp : Inputs) : List ℚ → Inputs × List (ℤ × ScenarioData)
  | [] => (inp, [])
  | c :: rest =>
    let inp1 : Inputs := { inp with pv_capacity := (pyRound c : ℚ) }
    let st := run_pv_sensitivity inp1 rest
    (st.1, (pyRound c, buildScenario inp1) :: st.2)

/-- The `npv` column of the aggregated table, indexed by rounded capacity. -/
def aggregate_data (scens : List (ℤ × ScenarioData)) : List (ℤ × ℚ) :=
  scens.map fun p => (p.1, p.2.data.npv)

/-- `pandas.Series.idxmax` over `(label, value)` rows: the label of the first
maximal value.  (On an empty series pandas raises; sweeps are nonempty, and
the claims below always carry a membership hypothesis.) -/
def idxmaxGo (best : ℤ × ℚ) : List (ℤ × ℚ) → ℤ × ℚ
  | [] => best
  | p :: rest => idxmaxGo (if best.2 < p.2 then p else best) rest

/-- `idxmax` of a `(label, value)` table. -/
def idxmax : List (ℤ × ℚ) → ℤ
  | [] => 0
  | r :: rest => (idxmaxGo r rest).1

/-- `PVSizing.highest_npv`: the capacity label of the scenario with maximal
NPV — the dictionary `self.scenario` is keyed by the rounded capacity, so
this label is the best scenario's pv capacity. -/
def highest_npv (scens : List (ℤ × ScenarioData)) : ℤ :=
  idxmax (aggregate_data scens)

/-- Helper: the loop state after the sweep, first component. -/
lemma run_pv_sensitivity_fst (grid : List ℚ) :
    ∀ (inp : Inputs) (c : ℚ), grid.getLast? = some c →
      (run_pv_sensitivity inp grid).1 = { inp with pv_capacity := (pyRound c : ℚ) } := by
  induction grid with
  | nil => intro inp c hlast; simp at hlast
  | cons x rest ih =>
    intro inp c hlast
    cases rest with
    | nil =>
      obtain rfl : x = c := by simpa using hlast
      rfl
    | cons y l =>
      have hlast' : (y :: l).getLast? = some c := by
        simpa [List.getLast?_cons_cons] using hlast
      exact ih { inp with pv_capacity := (pyRound x : ℚ) } c hlast'

/-- Helper: every scenario of the sweep is built from the shared input
object with only `pv_capacity` rewritten. -/
lemma run_pv_sensitivity_snd (grid : List ℚ) :
    ∀ inp : Inputs,
      (run_pv_sensitivity inp grid).2 =
        grid.map fun g => (pyRound g, buildScenario { inp with pv_capacity := (pyRound g : ℚ) }) := by
  induction grid with
  | nil => intro inp; rfl
  | cons x rest ih =>
    intro inp
    show (pyRound x, buildScenario { inp with pv_capacity := (pyRound x : ℚ) }) ::
        (run_pv_sensitivity { inp with pv_capacity := (pyRound x : ℚ) } rest).2 = _
    rw [ih { inp with pv_capacity := (pyRound x : ℚ) }]
    rfl

/-- C10: the Capacity Sweep mutates the Input Specification in place rather
than cloning it: after a sweep over a nonempty grid the shared input's pv
capacity equals the rounded last grid capacity, and each Scenario was built
from the same shared input object with only pv capacity rewritten between
iterations. -/
theorem sweep_mutates_shared_inputs (inp : Inputs) (grid : List ℚ) (c : ℚ)
    (hlast : grid.getLast? = some c) :
    (run_pv_sensitivity inp grid).1 = { inp with pv_capacity := (pyRound c : ℚ) } ∧
    (run_pv_sensitivity inp grid).2 =
      grid.map fun g => (pyRound g, buildScenario { inp with pv_capacity := (pyRound g : ℚ) }) :=
  ⟨run_pv_sensitivity_fst grid inp c hlast, run_pv_sensitivity_snd grid inp⟩

/-- Witness for C10: sweeping `exampleInputs` over the one-point grid `[3/2]`
leaves the shared inputs with `pv_capacity = round(1.5) = 2`. -/
theorem sweep_mutates_shared_inputs_witness :
    (run_pv_sensitivity exampleInputs [3/2]).1 =
      { exampleInputs with pv_capacity := (pyRound (3/2) : ℚ) } ∧
    (run_pv_sensitivity exampleInputs [3/2]).2 =
      [(3/2 : ℚ)].map fun g =>
        (pyRound g, buildScenario { exampleInputs with pv_capacity := (pyRound g : ℚ) }) :=
  sweep_mutates_shared_inputs exampleInputs [3/2] (3/2) rfl

/-- Helper: `idxmaxGo` returns the unique strictly-maximal row. -/
lemma idxmaxGo_eq_of_strict_max (c : ℤ) (v : ℚ) :
    ∀ (l : List (ℤ × ℚ)) (best : ℤ × ℚ),
      (best = (c, v) ∨ (c, v) ∈ l) →
      (∀ q : ℤ × ℚ, (q = best ∨ q ∈ l) → q = (c, v) ∨ q.2 < v) →
      idxmaxGo best l = (c, v) := by
  intro l
  induction l with
  | nil =>
    intro best h1 _h2
    rcases h1 with h | h
    · simpa [idxmaxGo] using h
    · simp at h
  | cons p rest ih =>
    intro best h1 h2
    show idxmaxGo (if best.2 < p.2 then p else best) rest = (c, v)
    apply ih
    · rcases h1 with hb | hmem1
      · subst hb
        left
        rcases h2 p (Or.inr (List.mem_cons_self p rest)) with hpv | hlt
        · subst hpv; simp
        · rw [if_neg (not_lt.mpr hlt.le)]
      · rcases List.mem_cons.1 hmem1 with hp | hr
        · left
          rcases h2 best (Or.inl rfl) with hbv | hlt
          · subst hbv
            rw [hp]
            simp
          · rw [← hp]
            rw [if_pos (show best.2 < (c, v).2 from hlt)]
        · right; exact hr
    · intro q hq
      rcases hq with hq | hq
      · subst hq
        by_cases hc : best.2 < p.2
        · rw [if_pos hc]; exact h2 p (Or.inr (List.mem_cons_self p rest))
        · rw [if_neg hc]; exact h2 best (Or.inl rfl)
      · exact h2 q (Or.inr (List.mem_cons_of_mem p hq))

/-- Helper: `idxmax` returns the label of the unique strictly-maximal row. -/
lemma idxmax_eq_of_strict_max (rows : List (ℤ × ℚ)) (c : ℤ) (v : ℚ)
    (hmem : (c, v) ∈ rows)
    (hstrict : ∀ q ∈ rows, q = (c, v) ∨ q.2 < v) :
    idxmax rows = c := by
  cases rows with
  | nil => simp at hmem
  | cons r rest =>
    show (idxmaxGo r rest).1 = c
    rw [idxmaxGo_eq_of_strict_max c v rest r
      (by rcases List.mem_cons.1 hmem with h | h
          · left; exact h.symm
          · right; exact h)
      (by intro q hq
          rcases hq with hq | hq
          · exact hstrict q (hq ▸ List.mem_cons_self r rest)
          · exact hstrict q (List.mem_cons_of_mem r hq))]

/-- C4: for every Capacity Sweep whose scenarios have pairwise-distinct NPVs,
the selected best scenario is the one whose NPV is maximal over all grid
candidates, with no filtering by the sign of the NPV. -/
theorem best_scenario_argmax (scens : List (ℤ × ScenarioData)) (c : ℤ) (s : ScenarioData)
    (hmem : (c, s) ∈ scens)
    (hmax : ∀ p ∈ scens, p.2.data.npv ≤ s.data.npv)
    (hdist : ((aggregate_data scens).map Prod.snd).Nodup) :
    highest_npv scens = c := by
  set v := s.data.npv with hv
  have hrowmem : (c, v) ∈ aggregate_data scens := by
    exact List.mem_map.mpr ⟨(c, s), hmem, rfl⟩
  have hrowmax : ∀ q ∈ aggregate_data scens, q = (c, v) ∨ q.2 < v := by
    intro q hq
    obtain ⟨p, hp, rfl⟩ := List.mem_map.1 hq
    rcases lt_or_eq_of_le (hmax p hp) with hlt | heq
    · right; exact hlt
    · left
      exact List.inj_on_of_nodup_map hdist (List.mem_map_of_mem _ hp) hrowmem heq
  exact idxmax_eq_of_strict_max (aggregate_data scens) c v hrowmem hrowmax

/-- A synthetic Scenario whose summary NPV is overridden, for instantiating
the best-selection theorem on the spec's three-scenario example. -/
def scenarioWithNpv (q : ℚ) : ScenarioData :=
  { buildScenario exampleInputs with
    data := { (buildScenario exampleInputs).data with npv := q } }

/-- Witness for C4: three synthetic Scenarios with NPVs 100, 500, -50 at
capacities 1000, 2000, 3000 — the best capacity is 2000. -/
theorem best_scenario_argmax_witness :
    highest_npv
      [(1000, scenarioWithNpv 100), (2000, scenarioWithNpv 500),
        (3000, scenarioWithNpv (-50))] = 2000 := by
  apply best_scenario_argmax _ 2000 (scenarioWithNpv 500)
  · simp
  · intro p hp
    rcases List.mem_cons.1 hp with h | hp'
    · subst h; show (100 : ℚ) ≤ _; norm_num [scenarioWithNpv]
    rcases List.mem_cons.1 hp' with h | hp''
    · subst h; exact le_refl _
    rcases List.mem_cons.1 hp'' with h | hp3
    · subst h; show (-50 : ℚ) ≤ _; norm_num [scenarioWithNpv]
    · simp at hp3
  · show ([(1000, scenarioWithNpv 100), (2000, scenarioWithNpv 500),
        (3000, scenarioWithNpv (-50))].map _).map Prod.snd |>.Nodup
    simp [aggregate_data, scenarioWithNpv]
    norm_num

/-! ## PVSizing.generate_pv_range (src/pv_sizing.py lines 20-27)

`numpy.linspace`/`numpy.logspace` with `endpoint=True`, over the reals.  For
`num = 1` numpy returns `[start]`; the uniform formula below covers it since
real division by zero is zero. -/

/-- `numpy.linspace(start, stop, num)`. -/
noncomputable def linspace (start stop : ℝ) (num : ℕ) : List ℝ :=
  (List.range num).map fun i : ℕ => start + (stop - start) * (i : ℝ) / ((num : ℝ) - 1)

/-- `numpy.logspace(start, stop, num)`: `10 **` each linspace element. -/
noncomputable def logspace (start stop : ℝ) (num : ℕ) : List ℝ :=
  (linspace start stop num).map fun e => (10 : ℝ) ^ e

/-- `generate_pv_range`: with log scale the exponents run from 0 to
`log10(var_max - var_min)` — the requested minimum is not the lower bound —
otherwise a plain linspace from `var_min` to `var_max`. -/
noncomputable def generate_pv_range (var_min var_max : ℝ) (steps : ℕ)
    (log_scale : Bool) : List ℝ :=
  if log_scale then logspace 0 (Real.logb 10 (var_max - var_min)) steps
  else linspace var_min var_max steps

/-- Helper: the first element of a mapped range. -/
lemma range_map_head (f : ℕ → ℝ) (n : ℕ) (hn : 0 < n) :
    ((List.range n).map f).head? = some (f 0) := by
  cases n with
  | zero => omega
  | succ m => rw [List.range_succ_eq_map]; simp

/-- Helper: the last element of a mapped range. -/
lemma range_map_getLast (f : ℕ → ℝ) (n : ℕ) (hn : 0 < n) :
    ((List.range n).map f).getLast? = some (f (n - 1)) := by
  cases n with
  | zero => omega
  | succ m =>
    rw [List.range_succ, List.map_append]
    simp

/-- C5 counterexample: with log scale, `var_min = 0`, `var_max = 10` and a
single requested step, the generated grid is `[1]`, so its last element is
not `var_max - var_min = 10` — the claim fails for `steps = 1`. -/
theorem log_grid_counterexample :
    generate_pv_range 0 10 1 true = [1] ∧
    (generate_pv_range 0 10 1 true).getLast? ≠ some ((10 : ℝ) - 0) := by
  have h : generate_pv_range 0 10 1 true = [1] := by
    unfold generate_pv_range logspace linspace
    rw [if_pos rfl]
    norm_num [List.range_succ, Real.rpow_natCast]
  refine ⟨h, ?_⟩
  rw [h]
  simp only [List.getLast?_singleton, ne_eq, Option.some.injEq]
  norm_num

/-- C5 amended: for log scale, at least two steps and `var_max > var_min + 1`,
the grid is the logspace over exponents `[0, log10(var_max - var_min)]`; its
first element is 1 regardless of the requested minimum and its last element
is `var_max - var_min`.  With log scale off the grid is the linspace from
`var_min` to `var_max`.  (For `steps = 1` numpy returns the single point
`10 ** 0 = 1`, which is what `log_grid_counterexample` records.) -/
theorem log_grid_endpoints (var_min var_max : ℝ) (steps : ℕ)
    (hsteps : 2 ≤ steps) (hrange : var_min + 1 < var_max) :
    generate_pv_range var_min var_max steps true =
      logspace 0 (Real.logb 10 (var_max - var_min)) steps ∧
    (generate_pv_range var_min var_max steps true).head? = some 1 ∧
    (generate_pv_range var_min var_max steps true).getLast? = some (var_max - var_min) ∧
    ∀ mn mx : ℝ, ∀ k : ℕ, generate_pv_range mn mx k false = linspace mn mx k := by
  have hpos : 0 < steps := by omega
  have hne : ((steps : ℝ) - 1) ≠ 0 := by
    have : (1 : ℝ) < (steps : ℝ) := by exact_mod_cast (by omega : 1 < steps)
    exact sub_ne_zero.mpr (by linarith)
  have hd : 0 < var_max - var_min := by linarith
  refine ⟨rfl, ?_, ?_, fun mn mx k => rfl⟩
  · unfold generate_pv_range logspace linspace
    rw [if_pos rfl, List.map_map, range_map_head _ steps hpos]
    norm_num
  · unfold generate_pv_range logspace linspace
    rw [if_pos rfl, List.map_map, range_map_getLast _ steps hpos]
    have hcast : ((steps - 1 : ℕ) : ℝ) = (steps : ℝ) - 1 := by
      have h1 : 1 ≤ steps := by omega
      rw [Nat.cast_sub h1, Nat.cast_one]
    simp only [Function.comp_apply, hcast, Option.some.injEq]
    rw [zero_add, sub_zero, mul_div_assoc, div_self hne, mul_one]
    exact Real.rpow_logb (by norm_num) (by norm_num) hd

/-- Witness for C5's amended theorem at `var_min = 0`, `var_max = 10`,
`steps = 2` (and the linear branch at `3, 7, 5`). -/
theorem log_grid_endpoints_witness :
    generate_pv_range 0 10 2 true = logspace 0 (Real.logb 10 ((10 : ℝ) - 0)) 2 ∧
    (generate_pv_range 0 10 2 true).head? = some 1 ∧
    (generate_pv_range 0 10 2 true).getLast? = some ((10 : ℝ) - 0) ∧
    generate_pv_range 3 7 5 false = linspace 3 7 5 := by
  have h := log_grid_endpoints 0 10 2 (by norm_num) (by norm_num)
  exact ⟨h.1, h.2.1, h.2.2.1, h.2.2.2 3 7 5⟩

/-! ## Sensitivity.run_sensitivity (src/sensitivity.py lines 26-50) -/

/-- The field names of the `Inputs` dataclass in declaration order, as
`dataclasses.fields(self.inputs)` iterates them (src/scenario.py lines 31-51). -/
def inputsFieldNames : List String :=
  ["load", "ref_yield", "ref_capacity", "postproc_losses", "ref_specific_yield",
   "study_period", "discount_rate", "pv_capacity", "pv_degradation", "currency",
   "devex", "capex", "opex", "opex_increase", "loan", "loan_period", "loan_rate",
   "import_tariff", "export_tariff", "import_increase", "export_increase"]

/-- Whether a field's `UnitVar` carries the unit `'%'`
(`_convert_to_unit_variables`, src/scenario.py lines 58-80); the sweep
divides the candidate value by 100 exactly for these fields. -/
def fieldUnitPercent (name : String) : Bool :=
  name ∈ ["postproc_losses", "discount_rate", "pv_degradation", "opex_increase",
    "loan", "loan_rate", "import_increase", "export_increase"]

/-- `run_sensitivity`: scan the dataclass fields for the requested name `var`;
on a match, loop over the candidate values — rounded to 4 decimals and scaled
to a decimal fraction for `%`-unit fields — writing each into the shared
input object (`input_var.value = sensitivity_val`; `assign` is the setter of
the selected field) and running a full capacity sweep, keying the result by
the candidate value.  The shared input state is threaded on: the capacity
sweep itself leaves `pv_capacity` mutated.  When no field name matches, the
loop body never runs: the function returns the empty result dictionary and
raises nothing. -/
def run_sensitivity (inp : Inputs) (var : String) (variable_range : List ℚ)
    (pv_range : List ℚ) (assign : Inputs → ℚ → Inputs) :
    Except String (List (ℚ × (Inputs × List (ℤ × ScenarioData)))) :=
  if var ∈ inputsFieldNames then
    Except.ok ((variable_range.foldl (fun st v =>
      let sv := if fieldUnitPercent var then round4Q v / 100 else round4Q v
      let inp1 := assign st.1 sv
      let sweep := run_pv_sensitivity inp1 pv_range
      (sweep.1, st.2 ++ [(sv, sweep)])) ((inp, []) : Inputs × List _)).2)
  else Except.ok []

/-- C9 counterexample: a secondary variable name matching no field of the
Input Specification makes the sensitivity sweep complete with an **empty**
result — `ok []` — rather than fail with an invalid-argument error. -/
theorem sensitivity_unknown_name_counterexample :
    run_sensitivity exampleInputs "not_a_field" [1, 2] [1000]
      (fun i v => { i with discount_rate := v }) = Except.ok [] := by
  unfold run_sensitivity
  rw [if_neg (by decide)]

/-- C9 amended: for every secondary variable name that matches no field of
the Input Specification, the sensitivity sweep completes and returns a
result with no entries; no invalid-argument error is raised. -/
theorem sensitivity_unknown_name_empty (inp : Inputs) (var : String)
    (variable_range pv_range : List ℚ) (assign : Inputs → ℚ → Inputs)
    (hvar : var ∉ inputsFieldNames) :
    run_sensitivity inp var variable_range pv_range assign = Except.ok [] := by
  unfold run_sensitivity
  rw [if_neg hvar]

/-- Witness for C9's amended theorem at the unknown name `"bogus"`. -/
theorem sensitivity_unknown_name_empty_witness :
    run_sensitivity exampleInputs "bogus" [3, 4, 5] [500, 1000]
      (fun i v => { i with capex := v }) = Except.ok [] :=
  sensitivity_unknown_name_empty exampleInputs "bogus" [3, 4, 5] [500, 1000]
    (fun i v => { i with capex := v }) (by decide)

/-! ## ScipyOptimiser.optimising_function_wrapper (src/optimiser.py lines 78-127) -/

/-- The scenario attributes the optimiser wrapper can set (the eight cases of
the first `match`, lines 93-111). -/
structure OptVars where
  study_period : ℚ
  discount_rate : ℚ
  pv_capacity : ℚ
  pv_degradation : ℚ
  capex : ℚ
  opex : ℚ
  import_tariff : ℚ
  export_tariff : ℚ

/-- The variable names the wrapper's first `match` accepts. -/
def supportedVariables : List String :=
  ["Study Period", "Discount Rate", "PV Capacity", "Module Degradation",
   "CAPEX", "OPEX", "Import Tariff", "Export Tariff"]

/-- The first `match` of `optimising_function_wrapper` (lines 93-111): set
the named attribute on the shared scenario object, or `raise ValueError` for
an unrecognised name. -/
def set_variable (s : OptVars) (var : String) (x : ℚ) : Except String OptVars :=
  match var with
  | "Study Period" => .ok { s with study_period := x }
  | "Discount Rate" => .ok { s with discount_rate := x }
  | "PV Capacity" => .ok { s with pv_capacity := x }
  | "Module Degradation" => .ok { s with pv_degradation := x }
  | "CAPEX" => .ok { s with capex := x }
  | "OPEX" => .ok { s with opex := x }
  | "Import Tariff" => .ok { s with import_tariff := x }
  | "Export Tariff" => .ok { s with export_tariff := x }
  | _ => .error "Variable name not recognised."

/-- `optimising_function_wrapper` (lines 78-127): set the named variable,
rerun the scenario, and transform the target metric by strategy.

Modelled from the spec: the rerun calls `self.scenario.update_scenario()`
and reads `self.scenario.summary[self.objective]`, but neither
`update_scenario` nor `summary` is defined anywhere under src/ — per the
spec this step "reruns the Scenario Engine" and reads one target summary
metric, so it is the abstract `summary : OptVars → String → ℚ` evaluated at
the mutated state and the objective name.  The second `match` (lines
117-127) returns the metric for `'Min'`, its negation for `'Max'`, the
metric minus the goal for `'Goal-Seek'`, and `raise ValueError` otherwise. -/
def optimising_function_wrapper (s : OptVars) (var optimisation objective : String)
    (to_value : ℚ) (summary : OptVars → String → ℚ) (x : ℚ) :
    Except String (OptVars × ℚ) := do
  let s1 ← set_variable s var x
  let metric := summary s1 objective
  match optimisation with
  | "Min" => .ok (s1, metric)
  | "Max" => .ok (s1, metric * (-1))
  | "Goal-Seek" => .ok (s1, metric - to_value)
  | _ => .error "Optimisation strategy possible values: 'Min', 'Max', 'Goal-seek'."

/-- Helper: an unsupported variable name makes `set_variable` raise. -/
lemma set_variable_unsupported (s : OptVars) (var : String) (x : ℚ)
    (hvar : var ∉ supportedVariables) :
    set_variable s var x = .error "Variable name not recognised." := by
  unfold set_variable
  split
  · exact absurd (by simp [supportedVariables]) hvar
  · exact absurd (by simp [supportedVariables]) hvar
  · exact absurd (by simp [supportedVariables]) hvar
  · exact absurd (by simp [supportedVariables]) hvar
  · exact absurd (by simp [supportedVariables]) hvar
  · exact absurd (by simp [supportedVariables]) hvar
  · exact absurd (by simp [supportedVariables]) hvar
  · exact absurd (by simp [supportedVariables]) hvar
  · rfl

/-- C8: with a supported variable name the wrapper sets that variable,
reruns the scenario, and returns the target metric for strategy `'Min'`, the
negated metric for `'Max'` and the metric minus the goal for `'Goal-Seek'`;
any variable name outside the supported set, and any strategy tag outside
these three, raises an invalid-argument (`ValueError`) error. -/
theorem objective_adapter_dispatch (s : OptVars) (var optimisation objective : String)
    (to_value x : ℚ) (summary : OptVars → String → ℚ) :
    (set_variable s "Study Period" x = Except.ok { s with study_period := x } ∧
     set_variable s "Discount Rate" x = Except.ok { s with discount_rate := x } ∧
     set_variable s "PV Capacity" x = Except.ok { s with pv_capacity := x } ∧
     set_variable s "Module Degradation" x = Except.ok { s with pv_degradation := x } ∧
     set_variable s "CAPEX" x = Except.ok { s with capex := x } ∧
     set_variable s "OPEX" x = Except.ok { s with opex := x } ∧
     set_variable s "Import Tariff" x = Except.ok { s with import_tariff := x } ∧
     set_variable s "Export Tariff" x = Except.ok { s with export_tariff := x }) ∧
    (∀ s1, set_variable s var x = Except.ok s1 →
      (optimisation = "Min" →
        optimising_function_wrapper s var optimisation objective to_value summary x =
          Except.ok (s1, summary s1 objective)) ∧
      (optimisation = "Max" →
        optimising_function_wrapper s var optimisation objective to_value summary x =
          Except.ok (s1, summary s1 objective * (-1))) ∧
      (optimisation = "Goal-Seek" →
        optimising_function_wrapper s var optimisation objective to_value summary x =
          Except.ok (s1, summary s1 objective - to_value)) ∧
      (optimisation ∉ (["Min", "Max", "Goal-Seek"] : List String) →
        optimising_function_wrapper s var optimisation objective to_value summary x =
          Except.error "Optimisation strategy possible values: 'Min', 'Max', 'Goal-seek'.")) ∧
    (var ∉ supportedVariables →
      optimising_function_wrapper s var optimisation objective to_value summary x =
        Except.error "Variable name not recognised.") := by
  refine ⟨⟨rfl, rfl, rfl, rfl, rfl, rfl, rfl, rfl⟩, ?_, ?_⟩
  · intro s1 hok
    unfold optimising_function_wrapper
    rw [hok]
    refine ⟨?_, ?_, ?_, ?_⟩
    · intro h; subst h; rfl
    · intro h; subst h; rfl
    · intro h; subst h; rfl
    · intro hnot
      show (match optimisation with
        | "Min" => Except.ok (s1, summary s1 objective)
        | "Max" => Except.ok (s1, summary s1 objective * (-1))
        | "Goal-Seek" => Except.ok (s1, summary s1 objective - to_value)
        | _ => Except.error
            "Optimisation strategy possible values: 'Min', 'Max', 'Goal-seek'.") =
        Except.error "Optimisation strategy possible values: 'Min', 'Max', 'Goal-seek'."
      split
      · simp at hnot
      · simp at hnot
      · simp at hnot
      · rfl
  · intro hvar
    unfold optimising_function_wrapper
    rw [set_variable_unsupported s var x hvar]
    rfl

/-- Concrete scenario-variable state for instantiating the C8 theorem. -/
def exampleOptVars : OptVars where
  study_period := 25
  discount_rate := 1/25
  pv_capacity := 1000
  pv_degradation := 1/200
  capex := 700
  opex := 15
  import_tariff := 1/10
  export_tariff := 1/20

/-- Witness for C8 at concrete inputs: a `'Max'` call negates the metric, an
unknown variable name errors, an unknown strategy tag errors. -/
theorem objective_adapter_dispatch_witness :
    optimising_function_wrapper exampleOptVars "PV Capacity" "Max" "npv" 0
        (fun _ _ => 42) 5 =
      Except.ok ({ exampleOptVars with pv_capacity := 5 }, 42 * (-1)) ∧
    optimising_function_wrapper exampleOptVars "bogus" "Min" "npv" 0
        (fun _ _ => 42) 5 =
      Except.error "Variable name not recognised." ∧
    optimising_function_wrapper exampleOptVars "PV Capacity" "Nonsense" "npv" 0
        (fun _ _ => 42) 5 =
      Except.error "Optimisation strategy possible values: 'Min', 'Max', 'Goal-seek'." :=
  ⟨((objective_adapter_dispatch exampleOptVars "PV Capacity" "Max" "npv" 0 5
      (fun _ _ => 42)).2.1 { exampleOptVars with pv_capacity := 5 } rfl).2.1 rfl,
   (objective_adapter_dispatch exampleOptVars "bogus" "Min" "npv" 0 5
      (fun _ _ => 42)).2.2 (by decide),
   ((objective_adapter_dispatch exampleOptVars "PV Capacity" "Nonsense" "npv" 0 5
      (fun _ _ => 42)).2.1 { exampleOptVars with pv_capacity := 5 } rfl).2.2.2 (by decide)⟩

/-! ## The payback-period estimator (src/scenario.py lines 350-357)

```
new_ys = np.round(np.linspace(start=1, stop=P, num=P*100), 2)
regression = self.cashflow['cash balance'].reindex(new_ys).interpolate()
result['pay_back_period'] = abs(regression).idxmin()
```

`np.linspace(1, P, 100*P)` produces `x_i = 1 + (P-1)*i/(100*P-1)` and
`np.round(_, 2)` rounds each to the nearest hundredth, ties to even, so every
grid label is an exact multiple of 0.01: labels are integers in cents.
`reindex` matches a label against the integer year index 0..P of the
cash-balance series (a label matches exactly when its cent value is a
multiple of 100); unmatched labels hold `NaN`.  `interpolate()` (pandas
`method='linear'`) ignores the index and fills each `NaN` run linearly by
position between its two nearest valid neighbours, leaves leading `NaN`s and
clamps trailing `NaN`s to the last valid value.  `abs(...).idxmin()` returns
the label of the first minimal absolute value, skipping `NaN`s.  All values
are kept as exact integer fractions. -/

/-- An exact fraction `num / den` with positive denominator, closed under
the linear-interpolation arithmetic of the estimator. -/
structure Frac where
  num : ℤ
  den : ℤ
  deriving Repr, DecidableEq

/-- The rational value of a `Frac`. -/
def fracVal (a : Frac) : ℚ := (a.num : ℚ) / (a.den : ℚ)

/-- `|a| < |b|` on fractions with positive denominators, by cross
multiplication. -/
def absLtFrac (a b : Frac) : Bool := |a.num| * b.den < |b.num| * a.den

/-- Round `num / den` (nonnegative naturals, `den > 0`) to the nearest
integer, ties to even — `np.round` semantics on a nonnegative grid. -/
def roundHalfEvenCents (num den : ℕ) : ℕ :=
  let q := num / den
  let r := num % den
  if 2 * r < den then q else if den < 2 * r then q + 1 else if q % 2 = 0 then q else q + 1

/-- `np.round(np.linspace(1, P, 100*P), 2)` in cents:
`round2(1 + (P-1)*i/(100*P-1)) * 100 = roundHalfEven(100*((100*P-1) + (P-1)*i) / (100*P-1))`. -/
def linspaceRound2Cents (P : ℕ) : List ℕ :=
  (List.range (100 * P)).map fun i =>
    roundHalfEvenCents (100 * ((100 * P - 1) + (P - 1) * i)) (100 * P - 1)

/-- `reindex`: a grid label (in cents) matches the year index 0..P of the
cash-balance series exactly when it is a whole number of years; unmatched
labels hold `NaN` (`none`). -/
def reindexCents (P : ℕ) (bal : ℕ → Frac) (c : ℕ) : Option Frac :=
  if c % 100 = 0 ∧ c / 100 ≤ P then some (bal (c / 100)) else none

/-- The value at distance `k+1` into a `NaN` run of length `g` between valid
neighbours `p` and `v`: `p + (v - p) * (k+1) / (g+1)`, positionally linear. -/
def interpVal (p v : Frac) (g k : ℕ) : Frac :=
  ⟨p.num * v.den * ((g : ℤ) + 1) + (v.num * p.den - p.num * v.den) * ((k : ℤ) + 1),
   p.den * v.den * ((g : ℤ) + 1)⟩

/-- The forward interpolation scan.  Arguments: the last valid value seen,
the length of the pending `NaN` run, and the remaining cells.  A `NaN` run
closed by a valid value `v` is emitted as the positional line from the last
valid value to `v`; a trailing run is clamped to the last valid value;
leading `NaN`s (no valid value seen yet) are kept. -/
def interpGo : Option Frac → ℕ → List (Option Frac) → List (Option Frac)
  | none, gap, [] => List.replicate gap none
  | some p, gap, [] => List.replicate gap (some p)
  | none, _, none :: rest => none :: interpGo none 0 rest
  | none, _, some v :: rest => some v :: interpGo (some v) 0 rest
  | some p, gap, none :: rest => interpGo (some p) (gap + 1) rest
  | some p, gap, some v :: rest =>
    ((List.range gap).map fun k => some (interpVal p v gap k)) ++
      some v :: interpGo (some v) 0 rest

/-- pandas `Series.interpolate()` (`method='linear'`, positional): fill each
interior `NaN` run linearly, keep leading `NaN`s, clamp trailing `NaN`s to
the last valid value. -/
def interpolate_series (cells : List (Option Frac)) : List (Option Frac) :=
  interpGo none 0 cells

/-- One step of `abs(series).idxmin()` over `(label, cell)` rows: skip `NaN`
cells, keep the first row whose absolute value is minimal so far. -/
def idxminStep (best : Option (ℕ × Frac)) (p : ℕ × Option Frac) : Option (ℕ × Frac) :=
  match p.2 with
  | none => best
  | some v =>
    match best with
    | none => some (p.1, v)
    | some b => if absLtFrac v b.2 then some (p.1, v) else best

/-- `abs(series).idxmin()`: the label of the first non-`NaN` minimal
absolute value (0 if every cell is `NaN`; pandas would raise there). -/
def idxminAbs (labels : List ℕ) (vals : List (Option Frac)) : ℕ :=
  match (labels.zip vals).foldl idxminStep none with
  | none => 0
  | some b => b.1

/-- The payback-period estimator of `_calc_summary`, in cents of a year:
resample the cash-balance curve onto the 100-points-per-year grid by linear
interpolation and report the grid label with minimal `|cash balance|`. -/
def pay_back_period_cents (P : ℕ) (bal : ℕ → Frac) : ℕ :=
  let labels := linspaceRound2Cents P
  idxminAbs labels (interpolate_series (labels.map (reindexCents P bal)))

/-- The synthetic cumulative cash balance of claim C3:
`balance[0] = -1000`, `balance[y] = balance[y-1] + 100`. -/
def syntheticBalance : ℕ → Frac := fun y => ⟨-1000 + 100 * (y : ℤ), 1⟩

/-- The `(label, interpolated cell)` rows of the synthetic 25-year run, the
series `abs(...).idxmin()` reduces over. -/
def syntheticZip : List (ℕ × Option Frac) :=
  (linspaceRound2Cents 25).zip
    (interpolate_series ((linspaceRound2Cents 25).map (reindexCents 25 syntheticBalance)))

set_option maxRecDepth 1000000 in
/-- C3: on the synthetic balance series over a 25-year study period the
estimator reports exactly 10.00 years — in particular within 0.05 years
of 10.0. -/
theorem payback_period_synthetic :
    pay_back_period_cents 25 syntheticBalance = 1000 ∧
    |(pay_back_period_cents 25 syntheticBalance : ℚ) / 100 - 10| ≤ 5/100 := by
  -- the 2500-row reduction is evaluated in three sections of 830/830/840 rows
  have c1 : (syntheticZip.take 830).foldl idxminStep none =
      some (896, ⟨-10800, 104⟩) := by decide
  have c2 : ((syntheticZip.drop 830).take 830).foldl idxminStep
      (some (896, ⟨-10800, 104⟩)) = some (1000, ⟨0, 1⟩) := by decide
  have c3 : ((syntheticZip.drop 830).drop 830).foldl idxminStep
      (some (1000, ⟨0, 1⟩)) = some (1000, ⟨0, 1⟩) := by decide
  have hfold : syntheticZip.foldl idxminStep none = some (1000, ⟨0, 1⟩) := by
    calc syntheticZip.foldl idxminStep none
        = (syntheticZip.take 830 ++ syntheticZip.drop 830).foldl idxminStep none := by
          rw [List.take_append_drop]
      _ = (syntheticZip.drop 830).foldl idxminStep
            ((syntheticZip.take 830).foldl idxminStep none) := by
          rw [List.foldl_append]
      _ = (syntheticZip.drop 830).foldl idxminStep (some (896, ⟨-10800, 104⟩)) := by
          rw [c1]
      _ = ((syntheticZip.drop 830).take 830 ++ (syntheticZip.drop 830).drop 830).foldl
            idxminStep (some (896, ⟨-10800, 104⟩)) := by
          rw [List.take_append_drop]
      _ = ((syntheticZip.drop 830).drop 830).foldl idxminStep
            (((syntheticZip.drop 830).take 830).foldl idxminStep
              (some (896, ⟨-10800, 104⟩))) := by
          rw [List.foldl_append]
      _ = some (1000, ⟨0, 1⟩) := by rw [c2, c3]
  have h : pay_back_period_cents 25 syntheticBalance = 1000 := by
    show idxminAbs (linspaceRound2Cents 25)
      (interpolate_series ((linspaceRound2Cents 25).map (reindexCents 25 syntheticBalance))) = 1000
    unfold idxminAbs
    rw [show ((linspaceRound2Cents 25).zip
        (interpolate_series ((linspaceRound2Cents 25).map
          (reindexCents 25 syntheticBalance)))).foldl idxminStep none =
        some (1000, ⟨0, 1⟩) from hfold]
  refine ⟨h, ?_⟩
  rw [h]
  norm_num
